import Mathlib

/-!
Verification of the korea-feasibility core against its specification.

Embedding conventions:
* JavaScript numbers are modelled as exact rationals (`ℚ`); `Math.floor`,
  `Math.ceil` and `Math.round` become `Int.floor`, `Int.ceil` and a
  round-half-up function `jsRound`.
* JavaScript strings are modelled as `List Char`.
* Network calls made by the Seoul city adapter are modelled by an
  environment record holding the results the private fetch helpers would
  return; credential presence is a pair of booleans, mirroring
  `isVWorldAvailable` / `isDataGoKrAvailable`.
* A JavaScript `throw` escaping a function is modelled with `Except`.
-/

namespace KoreaFeasibility

/-- Confidence level (`ConfidenceLevel` in `src/types/index.ts`). -/
inductive ConfidenceLevel where
  | high
  | medium
  | low
  | unknown
  deriving DecidableEq, Repr

/-- Zoning category (`ZoningCategory` in `src/types/index.ts`). -/
inductive ZoningCategory where
  | residential
  | commercial
  | industrial
  | green
  | management
  | agricultural
  | natural
  deriving DecidableEq, Repr

/-- Regulatory value (`RegulatoryValue` in `src/types/index.ts`): a numeric
value that may be `null`, plus a confidence tag.  The presentation-only
fields `unit`, `source` and `legalBasis` are omitted: no embedded operation
reads them. -/
structure RegulatoryValue where
  value : Option ℚ
  confidence : ConfidenceLevel
  deriving DecidableEq, Repr

/-- Zoning regulations (`ZoningRegulations` in `src/types/index.ts`). -/
structure ZoningRegulations where
  far : RegulatoryValue
  bcr : RegulatoryValue
  heightLimit : RegulatoryValue
  deriving DecidableEq, Repr

/-- Zoning information (`ZoningInfo` in `src/types/index.ts`). -/
structure ZoningInfo where
  code : List Char
  name : List Char
  category : ZoningCategory
  regulations : ZoningRegulations
  deriving DecidableEq, Repr

/-- Address component of the legacy `Parcel` type (`src/types/index.ts`). -/
structure ParcelAddress where
  full : List Char
  sido : List Char
  sigungu : List Char
  dong : List Char
  jibun : List Char
  deriving DecidableEq, Repr

/-- Legacy parcel (`Parcel` in `src/types/index.ts`).  `ring` is the outer
ring `geometry.coordinates[0]` as (lng, lat) pairs, the only part of the
geometry the embedded operations read. -/
structure Parcel where
  pnu : List Char
  address : ParcelAddress
  ring : List (ℚ × ℚ)
  area : ℚ
  deriving DecidableEq, Repr

/-- Setback distances in meters (`Setbacks` in `src/types/index.ts`). -/
structure Setbacks where
  front : ℚ
  rear : ℚ
  left : ℚ
  right : ℚ
  deriving DecidableEq, Repr

/-- Massing statistics (`MassingStatistics` in `src/types/index.ts`). -/
structure MassingStatistics where
  grossFloorArea : ℚ
  buildingCoverage : ℚ
  estimatedFloors : ℤ
  farUsed : ℚ
  bcrUsed : ℚ
  deriving DecidableEq, Repr

/-- Building envelope (`BuildingEnvelope` in `src/types/index.ts`). -/
structure BuildingEnvelope where
  footprint : List (ℚ × ℚ)
  maxHeight : ℚ
  setbacks : Setbacks
  deriving DecidableEq, Repr

/-- Massing result (`MassingResult` in `src/types/index.ts`). -/
structure MassingResult where
  envelope : BuildingEnvelope
  statistics : MassingStatistics
  confidence : ConfidenceLevel
  deriving DecidableEq, Repr

/-- JavaScript `Math.round`: round half toward positive infinity. -/
def jsRound (q : ℚ) : ℤ := ⌊q + 1 / 2⌋

/-- The `Math.round(x * 100) / 100` rounding used in `calculateStatistics`. -/
def round2 (q : ℚ) : ℚ := (jsRound (q * 100) : ℚ) / 100

/-- The `Math.round(x * 10) / 10` rounding used in `calculateStatistics`. -/
def round1 (q : ℚ) : ℚ := (jsRound (q * 10) : ℚ) / 10

/-- The `DEFAULT_SETBACKS` table of `src/domain/massingCalculator.ts`.
Every category is a key of the source table, so the
`DEFAULT_SETBACKS[category] || DEFAULT_SETBACKS.residential` fallback in
`getSetbacks` never fires and the table is a total function here. -/
def DEFAULT_SETBACKS : ZoningCategory → Setbacks
  | .residential => ⟨3, 2, 3 / 2, 3 / 2⟩
  | .commercial => ⟨2, 3 / 2, 1, 1⟩
  | .industrial => ⟨3, 2, 2, 2⟩
  | .green => ⟨5, 3, 3, 3⟩
  | .management => ⟨3, 2, 2, 2⟩
  | .agricultural => ⟨3, 2, 2, 2⟩
  | .natural => ⟨5, 3, 3, 3⟩

/-- The `getSetbacks` helper of `src/domain/massingCalculator.ts`. -/
def getSetbacks (category : ZoningCategory) : Setbacks := DEFAULT_SETBACKS category

/-- The `FLOOR_HEIGHT` lookup of `src/domain/massingCalculator.ts`:
`FLOOR_HEIGHT[category] || FLOOR_HEIGHT.default`, where the table keys are
residential (3.0), commercial (4.0) and industrial (5.0) and the default
is 3.5. -/
def floorHeight : ZoningCategory → ℚ
  | .residential => 3
  | .commercial => 4
  | .industrial => 5
  | _ => 7 / 2

/-- Minimum of a list of rationals (`Math.min(...xs)`); rings handed to the
calculator are nonempty, so the empty-list value is irrelevant. -/
def listMin : List ℚ → ℚ
  | [] => 0
  | x :: xs => xs.foldl min x

/-- Maximum of a list of rationals (`Math.max(...xs)`). -/
def listMax : List ℚ → ℚ
  | [] => 0
  | x :: xs => xs.foldl max x

/-- Meters per degree of longitude used throughout the source. -/
def metersPerDegreeLng : ℚ := 88000

/-- Meters per degree of latitude used throughout the source. -/
def metersPerDegreeLat : ℚ := 111000

/-- The `calculateBuildableFootprint` function of
`src/domain/massingCalculator.ts`: axis-aligned bounding box of the parcel
ring, inset by the setbacks converted to degrees. -/
def calculateBuildableFootprint (parcel : Parcel) (setbacks : Setbacks) :
    List (ℚ × ℚ) :=
  let coords := parcel.ring
  let frontSetbackDeg := setbacks.front / metersPerDegreeLat
  let rearSetbackDeg := setbacks.rear / metersPerDegreeLat
  let leftSetbackDeg := setbacks.left / metersPerDegreeLng
  let rightSetbackDeg := setbacks.right / metersPerDegreeLng
  let minLng := listMin (coords.map Prod.fst)
  let maxLng := listMax (coords.map Prod.fst)
  let minLat := listMin (coords.map Prod.snd)
  let maxLat := listMax (coords.map Prod.snd)
  [(minLng + leftSetbackDeg, minLat + frontSetbackDeg),
    (maxLng - rightSetbackDeg, minLat + frontSetbackDeg),
    (maxLng - rightSetbackDeg, maxLat - rearSetbackDeg),
    (minLng + leftSetbackDeg, maxLat - rearSetbackDeg)]

/-- The `calculateBuildingCoverage` function of
`src/domain/massingCalculator.ts`: `parcelArea * ((bcr.value ?? 60) / 100)`. -/
def calculateBuildingCoverage (parcelArea : ℚ) (zoning : ZoningInfo) : ℚ :=
  let bcrPercent := zoning.regulations.bcr.value.getD 60
  parcelArea * (bcrPercent / 100)

/-- The height implied by the FAR constraint before any clamping: the local
`estimatedFloors * floorHeight` of `calculateMaxHeight` in
`src/domain/massingCalculator.ts`. -/
def farImpliedHeight (parcelArea : ℚ) (zoning : ZoningInfo)
    (buildingCoverage : ℚ) : ℚ :=
  let farPercent := zoning.regulations.far.value.getD 200
  let maxGFA := parcelArea * (farPercent / 100)
  let fh := floorHeight zoning.category
  let estimatedFloors : ℤ := ⌈maxGFA / buildingCoverage⌉
  (estimatedFloors : ℚ) * fh

/-- The height-limit clamp inside `calculateMaxHeight`: the
`if (heightLimit && calculatedHeight > heightLimit)` guard tests JS
truthiness of `heightLimit.value`, so a `null` or zero limit is ignored. -/
def applyHeightLimit (heightLimit : Option ℚ) (calculatedHeight : ℚ) : ℚ :=
  match heightLimit with
  | some h => if h ≠ 0 ∧ calculatedHeight > h then h else calculatedHeight
  | none => calculatedHeight

/-- The `calculateMaxHeight` function of `src/domain/massingCalculator.ts`:
the FAR-implied height, clamped by the explicit height limit, finally
capped at 500 m. -/
def calculateMaxHeight (parcelArea : ℚ) (zoning : ZoningInfo)
    (buildingCoverage : ℚ) : ℚ :=
  let calculatedHeight := farImpliedHeight parcelArea zoning buildingCoverage
  min (applyHeightLimit zoning.regulations.heightLimit.value calculatedHeight) 500

/-- The `calculateStatistics` function of `src/domain/massingCalculator.ts`. -/
def calculateStatistics (parcelArea buildingCoverage maxHeight : ℚ)
    (zoning : ZoningInfo) : MassingStatistics :=
  let fh := floorHeight zoning.category
  let estimatedFloors : ℤ := ⌊maxHeight / fh⌋
  let grossFloorArea := buildingCoverage * (estimatedFloors : ℚ)
  let farUsed := grossFloorArea / parcelArea * 100
  let bcrUsed := buildingCoverage / parcelArea * 100
  { grossFloorArea := round2 grossFloorArea
    buildingCoverage := round2 buildingCoverage
    estimatedFloors := estimatedFloors
    farUsed := round1 farUsed
    bcrUsed := round1 bcrUsed }

/-- The `calculateMassing` entry point of `src/domain/massingCalculator.ts`. -/
def calculateMassing (parcel : Parcel) (zoning : ZoningInfo) : MassingResult :=
  let setbacks := getSetbacks zoning.category
  let buildableFootprint := calculateBuildableFootprint parcel setbacks
  let buildingCoverage := calculateBuildingCoverage parcel.area zoning
  let maxHeight := calculateMaxHeight parcel.area zoning buildingCoverage
  let statistics := calculateStatistics parcel.area buildingCoverage maxHeight zoning
  let envelope : BuildingEnvelope :=
    { footprint := buildableFootprint, maxHeight := maxHeight, setbacks := setbacks }
  let confidence :=
    if zoning.regulations.far.confidence = ConfidenceLevel.high ∧
        zoning.regulations.bcr.confidence = ConfidenceLevel.high then
      ConfidenceLevel.high
    else if zoning.regulations.far.confidence = ConfidenceLevel.unknown ∨
        zoning.regulations.bcr.confidence = ConfidenceLevel.unknown then
      ConfidenceLevel.low
    else
      ConfidenceLevel.medium
  { envelope := envelope, statistics := statistics, confidence := confidence }

/-! PNU (parcel unique number) model, from `src/domain/korea/parcel.ts`. -/

/-- Parsed PNU (`PNU` interface in `src/domain/korea/parcel.ts`). -/
structure PNU where
  full : List Char
  sido : List Char
  sigungu : List Char
  eupmyeondong : List Char
  ri : List Char
  bonbun : List Char
  bubun : List Char
  sanType : Char
  deriving DecidableEq, Repr

/-- PNU components without the `full` field (`Omit<PNU, 'full'>`, the input
type of `buildPNU`). -/
structure PNUComponents where
  sido : List Char
  sigungu : List Char
  eupmyeondong : List Char
  ri : List Char
  bonbun : List Char
  bubun : List Char
  sanType : Char
  deriving DecidableEq, Repr

/-- The `parsePNU` function of `src/domain/korea/parcel.ts`.  The source
rejects the input when `pnu.length !== 19` or when the final character is
not 1 or 2; the guard here is the contrapositive of those early returns.
The `none` arm of the index match is unreachable for 19-character input. -/
def parsePNU (pnu : List Char) : Option PNU :=
  if pnu.length = 19 then
    match pnu[18]? with
    | some sanType =>
      if sanType = '1' ∨ sanType = '2' then
        some { full := pnu
               sido := pnu.take 2
               sigungu := (pnu.drop 2).take 3
               eupmyeondong := (pnu.drop 5).take 3
               ri := (pnu.drop 8).take 2
               bonbun := (pnu.drop 10).take 4
               bubun := (pnu.drop 14).take 4
               sanType := sanType }
      else none
    | none => none
  else none

/-- JavaScript `String.prototype.padStart(n, c)`. -/
def padStart (n : Nat) (c : Char) (s : List Char) : List Char :=
  List.replicate (n - s.length) c ++ s

/-- The `buildPNU` function of `src/domain/korea/parcel.ts`. -/
def buildPNU (c : PNUComponents) : List Char :=
  c.sido ++ padStart 3 '0' c.sigungu ++ padStart 3 '0' c.eupmyeondong ++
    padStart 2 '0' c.ri ++ padStart 4 '0' c.bonbun ++ padStart 4 '0' c.bubun ++
    [c.sanType]

/-- Valid PNU component set as the spec describes it: fixed-width digit
fields with the land-type flag in 1 or 2. -/
def ValidPNUComponents (c : PNUComponents) : Prop :=
  c.sido.length = 2 ∧ c.sigungu.length = 3 ∧ c.eupmyeondong.length = 3 ∧
    c.ri.length = 2 ∧ c.bonbun.length = 4 ∧ c.bubun.length = 4 ∧
    (∀ ch ∈ c.sido ++ c.sigungu ++ c.eupmyeondong ++ c.ri ++ c.bonbun ++ c.bubun,
      ch.isDigit) ∧
    (c.sanType = '1' ∨ c.sanType = '2')

instance (c : PNUComponents) : Decidable (ValidPNUComponents c) := by
  unfold ValidPNUComponents; infer_instance

/-- The components a successful parse should recover, paired with the built
string as the `full` field. -/
def componentsToPNU (c : PNUComponents) : PNU :=
  { full := buildPNU c
    sido := c.sido
    sigungu := c.sigungu
    eupmyeondong := c.eupmyeondong
    ri := c.ri
    bonbun := c.bonbun
    bubun := c.bubun
    sanType := c.sanType }

/-! Address resolution, from `SeoulCityAdapter` (v2) in the unnamed adapter
source file.  The three regular expressions the source uses are modelled by
explicit leftmost-greedy matchers over `List Char`. -/

/-- JavaScript `String.prototype.trim`. -/
def jsTrim (s : List Char) : List Char :=
  ((s.dropWhile Char.isWhitespace).reverse.dropWhile Char.isWhitespace).reverse

/-- Membership in the regex character class for Hangul syllables
(U+AC00 to U+D7A3). -/
def isHangulSyllable (ch : Char) : Bool :=
  44032 ≤ ch.toNat && ch.toNat ≤ 55203

/-- Index of the last terminator character inside the maximal Hangul run
starting at the head of s, provided at least one Hangul character precedes
it.  This is the group a leftmost-greedy match of the anchored pattern
"one-or-more Hangul followed by a terminator" selects: the plus is greedy,
so backtracking picks the last terminator of the run. -/
def lastTerminatorIdx (terminators : List Char) (s : List Char) : Option Nat :=
  (List.range (s.takeWhile isHangulSyllable).length).reverse.find?
    (fun j => (j != 0) &&
      (match s[j]? with
       | some ch => terminators.contains ch
       | none => false))

/-- Anchored match of the pattern at the head of s, returning the matched
substring. -/
def matchHangulSeqAt (terminators : List Char) (s : List Char) :
    Option (List Char) :=
  match lastTerminatorIdx terminators s with
  | some j => some (s.take (j + 1))
  | none => none

/-- Leftmost match of a Hangul-run-plus-terminator pattern: the JS regexes
`([가-힣]+구)` (district) and `([가-힣]+[동읍면])` (dong) applied with
`String.prototype.match`. -/
def findHangulSeq (terminators : List Char) : List Char → Option (List Char)
  | [] => none
  | ch :: rest =>
    match matchHangulSeqAt terminators (ch :: rest) with
    | some m => some m
    | none => findHangulSeq terminators rest

/-- Longest digit prefix. -/
def digitRun (s : List Char) : List Char := s.takeWhile Char.isDigit

/-- The optional `(-(\d+))?` tail of the jibun regex: a dash followed by at
least one digit, else no group. -/
def matchDashBubun (s : List Char) : Option (List Char) :=
  match s with
  | '-' :: rest =>
    let d := digitRun rest
    if d.isEmpty then none else some d
  | _ => none

/-- Result of the jibun regex `(산\s*)?(\d+)(-(\d+))?`: group 1 presence,
group 2 digits, group 4 digits. -/
structure JibunMatch where
  isSan : Bool
  bonbunDigits : List Char
  bubunDigits : Option (List Char)
  deriving DecidableEq, Repr

/-- Anchored match of the jibun regex at the head of s. -/
def matchJibunAt (s : List Char) : Option JibunMatch :=
  match s with
  | '산' :: rest =>
    let afterWs := rest.dropWhile Char.isWhitespace
    let d := digitRun afterWs
    if d.isEmpty then none
    else some { isSan := true, bonbunDigits := d,
                bubunDigits := matchDashBubun (afterWs.drop d.length) }
  | ch :: rest =>
    if ch.isDigit then
      let d := digitRun (ch :: rest)
      some { isSan := false, bonbunDigits := d,
             bubunDigits := matchDashBubun ((ch :: rest).drop d.length) }
    else none
  | [] => none

/-- Leftmost match of the jibun regex. -/
def findJibun : List Char → Option JibunMatch
  | [] => none
  | ch :: rest =>
    match matchJibunAt (ch :: rest) with
    | some m => some m
    | none => findJibun rest

/-- JavaScript `parseInt(digits, 10)` on a nonempty digit run. -/
def parseDigits (d : List Char) : Nat :=
  d.foldl (fun n ch => n * 10 + (ch.toNat - 48)) 0

/-- Jibun address (`JibunAddress` in `src/domain/korea/parcel.ts`). -/
structure JibunAddress where
  sido : List Char
  sigungu : List Char
  eupmyeondong : List Char
  ri : Option (List Char)
  bonbun : Nat
  bubun : Option Nat
  isSan : Bool
  deriving DecidableEq, Repr

/-- Result of `parseAddressComponents` (v2 adapter). -/
structure ParsedComponents where
  dong : Option (List Char)
  jibunAddress : Option JibunAddress
  deriving DecidableEq, Repr

/-- The `parseAddressComponents` helper of the v2 adapter: extract the dong
via the dong regex and the lot number via the jibun regex; without a dong no
jibun address is produced. -/
def parseAddressComponents (address : List Char) (district : List Char) :
    ParsedComponents :=
  let dong := findHangulSeq ['동', '읍', '면'] address
  let jibunMatch := findJibun address
  match dong with
  | none => { dong := none, jibunAddress := none }
  | some g =>
    { dong := some g
      jibunAddress := some
        { sido := ("서울특별시").toList
          sigungu := district
          eupmyeondong := g
          ri := none
          bonbun := match jibunMatch with
            | some m => parseDigits m.bonbunDigits
            | none => 1
          bubun := match jibunMatch with
            | some m => m.bubunDigits.map parseDigits
            | none => none
          isSan := match jibunMatch with
            | some m => m.isSan
            | none => false } }

/-- Truncation to a signed 32-bit integer (JS `ToInt32`, applied by the
bitwise operators in `hashString`). -/
def toInt32 (n : ℤ) : ℤ := (n + 2 ^ 31) % 2 ^ 32 - 2 ^ 31

/-- One step of `hashString`:
`hash = (hash << 5) - hash + charCode; hash = hash & hash`. -/
def hashStep (hash code : ℤ) : ℤ :=
  toInt32 (toInt32 (hash * 2 ^ 5) - hash + code)

/-- The `hashString` helper of the v2 adapter.  `charCodeAt` agrees with the
code point for the Basic Multilingual Plane characters that occur here. -/
def hashString (s : List Char) : ℤ :=
  |s.foldl (fun h ch => hashStep h (ch.toNat : ℤ)) 0|

/-- JavaScript `%` for a nonnegative dividend and positive divisor (the only
case `getCoordinates` produces, since the hash is taken through
`Math.abs`). -/
def jsMod (x y : ℚ) : ℚ := x - y * ⌊x / y⌋

/-- The `DISTRICT_COORDINATES` table of the adapter source: district name to
centroid (lng, lat). -/
def DISTRICT_COORDINATES : List (List Char × (ℚ × ℚ)) :=
  [(("종로구").toList, (126.979, 37.5735)),
   (("중구").toList, (126.998, 37.5641)),
   (("용산구").toList, (126.99, 37.5326)),
   (("성동구").toList, (127.037, 37.5634)),
   (("광진구").toList, (127.082, 37.5385)),
   (("동대문구").toList, (127.04, 37.5743)),
   (("중랑구").toList, (127.093, 37.6066)),
   (("성북구").toList, (127.017, 37.5894)),
   (("강북구").toList, (127.011, 37.6398)),
   (("도봉구").toList, (127.047, 37.6688)),
   (("노원구").toList, (127.056, 37.6543)),
   (("은평구").toList, (126.929, 37.6027)),
   (("서대문구").toList, (126.937, 37.5791)),
   (("마포구").toList, (126.901, 37.5663)),
   (("양천구").toList, (126.866, 37.5169)),
   (("강서구").toList, (126.85, 37.5509)),
   (("구로구").toList, (126.888, 37.4955)),
   (("금천구").toList, (126.896, 37.4566)),
   (("영등포구").toList, (126.896, 37.5264)),
   (("동작구").toList, (126.939, 37.5124)),
   (("관악구").toList, (126.952, 37.4784)),
   (("서초구").toList, (127.033, 37.4837)),
   (("강남구").toList, (127.047, 37.5172)),
   (("송파구").toList, (127.106, 37.5146)),
   (("강동구").toList, (127.124, 37.5302))]

/-- The `SEOUL_DISTRICT_CODES` table of `src/domain/korea/parcel.ts`,
district name to administrative code. -/
def SEOUL_DISTRICT_CODES : List (List Char × List Char) :=
  [(("종로구").toList, ("110").toList),
   (("중구").toList, ("140").toList),
   (("용산구").toList, ("170").toList),
   (("성동구").toList, ("200").toList),
   (("광진구").toList, ("215").toList),
   (("동대문구").toList, ("230").toList),
   (("중랑구").toList, ("260").toList),
   (("성북구").toList, ("290").toList),
   (("강북구").toList, ("305").toList),
   (("도봉구").toList, ("320").toList),
   (("노원구").toList, ("350").toList),
   (("은평구").toList, ("380").toList),
   (("서대문구").toList, ("410").toList),
   (("마포구").toList, ("440").toList),
   (("양천구").toList, ("470").toList),
   (("강서구").toList, ("500").toList),
   (("구로구").toList, ("530").toList),
   (("금천구").toList, ("545").toList),
   (("영등포구").toList, ("560").toList),
   (("동작구").toList, ("590").toList),
   (("관악구").toList, ("620").toList),
   (("서초구").toList, ("650").toList),
   (("강남구").toList, ("680").toList),
   (("송파구").toList, ("710").toList),
   (("강동구").toList, ("740").toList)]

/-- The `getCoordinates` helper of the v2 adapter: district centroid plus a
small offset derived from the hash of the dong name; a missing or empty dong
(JS falsiness) means offset 0; an unknown district falls back to the Seoul
city-center coordinate. -/
def getCoordinates (district : List Char) (dong : Option (List Char)) :
    ℚ × ℚ :=
  match DISTRICT_COORDINATES.lookup district with
  | some coords =>
    let offset : ℚ :=
      match dong with
      | some g => if g.isEmpty then 0 else ((hashString g : ℤ) : ℚ)
      | none => 0
    (coords.1 + jsMod offset 100 * (1 / 100000),
      coords.2 + jsMod (offset / 100) 100 * (1 / 100000))
  | none => (126.978, 37.5665)

/-- Address-resolution confidence (`ResolvedAddressResult` in
`src/domain/korea/index.ts`). -/
inductive AddressConfidence where
  | exact
  | approximate
  | district_level
  | failed
  deriving DecidableEq, Repr

/-- Address-resolution result (`ResolvedAddressResult` in
`src/domain/korea/index.ts`).  The presentation-only fields `normalized`,
`roadAddress` and `error` are omitted: no embedded operation reads them. -/
structure ResolvedAddressResult where
  success : Bool
  input : List Char
  jibunAddress : Option JibunAddress
  coordinates : Option (ℚ × ℚ)
  confidence : AddressConfidence
  deriving DecidableEq, Repr

/-- Substring containment test for character lists (an unanchored regex
match of a literal pattern). -/
def containsSeq (needle : List Char) : List Char → Bool
  | [] => needle.isEmpty
  | ch :: rest => needle.isPrefixOf (ch :: rest) || containsSeq needle rest

/-- The `isAddressInCity` check of the v2 adapter: one of the patterns
`^서울`, `서울특별시`, `서울시`, `^seoul` (case-insensitive) matches the
trimmed address. -/
def isAddressInCity (address : List Char) : Bool :=
  let t := jsTrim address
  ("서울").toList.isPrefixOf t || containsSeq (("서울특별시").toList) t ||
    containsSeq (("서울시").toList) t ||
    ("seoul").toList.isPrefixOf (t.map Char.toLower)

/-- The `resolveAddress` method of the v2 adapter: length check, city check,
district extraction and validation, component parsing, then geocoding. -/
def resolveAddress (input : List Char) : ResolvedAddressResult :=
  let trimmed := jsTrim input
  if trimmed.length < 5 then
    { success := false, input := input, jibunAddress := none,
      coordinates := none, confidence := .failed }
  else if ¬ isAddressInCity trimmed then
    { success := false, input := input, jibunAddress := none,
      coordinates := none, confidence := .failed }
  else
    match findHangulSeq ['구'] trimmed with
    | none =>
      { success := false, input := input, jibunAddress := none,
        coordinates := none, confidence := .failed }
    | some district =>
      match SEOUL_DISTRICT_CODES.lookup district with
      | none =>
        { success := false, input := input, jibunAddress := none,
          coordinates := none, confidence := .failed }
      | some _ =>
        let parsed := parseAddressComponents trimmed district
        { success := true
          input := input
          jibunAddress := parsed.jibunAddress
          coordinates := some (getCoordinates district parsed.dong)
          confidence := if parsed.jibunAddress.isSome then .approximate
            else .district_level }

/-- District extracted by `resolveAddress` from an address. -/
def extractedDistrict (input : List Char) : Option (List Char) :=
  findHangulSeq ['구'] (jsTrim input)

/-- Dong extracted by `parseAddressComponents` from an address. -/
def extractedDong (input : List Char) : Option (List Char) :=
  findHangulSeq ['동', '읍', '면'] (jsTrim input)

/-! Korea parcel domain model and the network-facing operations of the v2
adapter.  Each private network fetcher is modelled by the result value it
would return, held in an environment record, with credential presence as
two booleans mirroring `isVWorldAvailable` and `isDataGoKrAvailable`. -/

/-- Data provider tags (`ParcelDataSource` in `src/domain/korea/parcel.ts`). -/
inductive Provider where
  | VWORLD
  | NSDI
  | LURIS
  | LOCAL_MOCK
  | USER_INPUT
  deriving DecidableEq, Repr

/-- Reliability tiers (`ParcelDataSource` in `src/domain/korea/parcel.ts`). -/
inductive Reliability where
  | official
  | derived
  | estimated
  | user_provided
  deriving DecidableEq, Repr

/-- Parcel data source (`ParcelDataSource`); the optional `apiVersion` is
omitted. -/
structure ParcelDataSource where
  provider : Provider
  reliability : Reliability
  deriving DecidableEq, Repr

/-- Land-use status (`LandUseStatus` in `src/domain/korea/parcel.ts`); the
land category is kept as its Korean string. -/
structure LandUseStatus where
  category : List Char
  officialLandPrice : Option ℚ
  priceYear : Option Nat
  deriving DecidableEq, Repr

/-- Korea parcel (`KoreaParcel` in `src/domain/korea/parcel.ts`).
`geometry` is the outer ring `coordinates[0]`; the impure `retrievedAt`
timestamp and optional `roadAddress` are omitted. -/
structure KoreaParcel where
  pnu : PNU
  jibunAddress : JibunAddress
  geometry : List (ℚ × ℚ)
  area : ℚ
  landUse : LandUseStatus
  dataSource : ParcelDataSource
  deriving DecidableEq, Repr

/-- The `calculateAreaFromGeometry` function of
`src/domain/korea/parcel.ts`: fixed-scale planar shoelace area over the
first n vertices of the ring (the closing vertex dropped), in m². -/
def calculateAreaFromGeometry (ring : List (ℚ × ℚ)) : ℚ :=
  if ring.length < 3 then 0
  else
    let pts := ring.dropLast
    let s := (pts.zip (pts.rotate 1)).foldl
      (fun acc pq =>
        acc + pq.1.1 * metersPerDegreeLng * (pq.2.2 * metersPerDegreeLat) -
          pq.2.1 * metersPerDegreeLng * (pq.1.2 * metersPerDegreeLat)) 0
    |s / 2|

/-- The `generatePNU` helper of the v2 adapter.  An unknown district throws
(modelled by `Except.error`); error strings are abbreviated, claims never
read them.  `bonbun?.toString() || '1'` cannot take the `|| '1'` branch
(bonbun is required and its decimal string is nonempty), and
`bubun?.toString() || '0'` yields the digits of bubun or "0". -/
def generatePNU (jibunAddress : JibunAddress) : Except (List Char) PNU :=
  match SEOUL_DISTRICT_CODES.lookup jibunAddress.sigungu with
  | none => .error (("알 수 없는 구").toList)
  | some districtCode =>
    let bonbun := Nat.toDigits 10 jibunAddress.bonbun
    let bubun := match jibunAddress.bubun with
      | some b => Nat.toDigits 10 b
      | none => ['0']
    let sanType : Char := if jibunAddress.isSan then '2' else '1'
    .ok { full := buildPNU
            { sido := ("11").toList
              sigungu := districtCode
              eupmyeondong := ("101").toList
              ri := ("00").toList
              bonbun := padStart 4 '0' bonbun
              bubun := padStart 4 '0' bubun
              sanType := sanType }
          sido := ("11").toList
          sigungu := districtCode
          eupmyeondong := ("101").toList
          ri := ("00").toList
          bonbun := padStart 4 '0' bonbun
          bubun := padStart 4 '0' bubun
          sanType := sanType }

/-- The `generateMockParcel` helper of the v2 adapter: requires a jibun
address with a truthy (nonempty) district, else throws; builds a mock
rectangular ring around the coordinate and derives the area and PNU. -/
def generateMockParcel (coordinates : ℚ × ℚ)
    (jibunAddress : Option JibunAddress) : Except (List Char) KoreaParcel :=
  match jibunAddress with
  | none => .error (("주소에서 구 정보를 추출할 수 없습니다").toList)
  | some j =>
    if j.sigungu.isEmpty then
      .error (("주소에서 구 정보를 추출할 수 없습니다").toList)
    else
      let widthDeg : ℚ := 0.0002
      let heightDeg : ℚ := 0.00028
      let halfW := widthDeg / 2
      let halfH := heightDeg / 2
      let ring : List (ℚ × ℚ) :=
        [(coordinates.1 - halfW, coordinates.2 - halfH),
          (coordinates.1 + halfW, coordinates.2 - halfH),
          (coordinates.1 + halfW, coordinates.2 + halfH),
          (coordinates.1 - halfW, coordinates.2 + halfH),
          (coordinates.1 - halfW, coordinates.2 - halfH)]
      let area := calculateAreaFromGeometry ring
      match generatePNU j with
      | .error e => .error e
      | .ok pnu =>
        .ok { pnu := pnu
              jibunAddress := j
              geometry := ring
              area := round2 area
              landUse := { category := ("대").toList
                           officialLandPrice := some 5000000
                           priceYear := some 2024 }
              dataSource := { provider := .LOCAL_MOCK
                              reliability := .estimated } }

/-- Parcel result source tag (`ParcelFetchResult` in
`src/domain/korea/index.ts`). -/
inductive ParcelSource where
  | api
  | cache
  | mock
  deriving DecidableEq, Repr

/-- Parcel result confidence (`ParcelFetchResult`). -/
inductive ParcelConfidence where
  | official
  | derived
  | estimated
  deriving DecidableEq, Repr

/-- Parcel fetch result (`ParcelFetchResult` in
`src/domain/korea/index.ts`). -/
structure ParcelFetchResult where
  success : Bool
  parcel : Option KoreaParcel
  source : ParcelSource
  confidence : ParcelConfidence
  error : Option (List Char)
  deriving DecidableEq, Repr

/-- Credential configuration plus the results the two private parcel
fetchers (`fetchParcelFromVWorld`, `fetchParcelFromDataGoKr`) would return
if called. -/
structure ParcelEnv where
  vworldAvailable : Bool
  dataGoKrAvailable : Bool
  vworldParcel : ParcelFetchResult
  dataGoKrParcel : ParcelFetchResult
  deriving DecidableEq, Repr

/-- The `fetchParcel` method of the v2 adapter on a resolved-address input
(the coordinate-pair overload is not modelled; the claims concern the
address form).  Registry order: VWorld if credentialed, then data.go.kr if
credentialed and a jibun address exists; with no credential at all, a mock
parcel is synthesized (whose generator may throw); with some credential
configured but every attempt failed, a failure result is returned. -/
def fetchParcel (env : ParcelEnv) (addr : ResolvedAddressResult) :
    Except (List Char) ParcelFetchResult :=
  match addr.success, addr.coordinates with
  | true, some coordinates =>
    let jibunAddress := addr.jibunAddress
    if env.vworldAvailable && env.vworldParcel.success then
      .ok env.vworldParcel
    else if env.dataGoKrAvailable && jibunAddress.isSome &&
        env.dataGoKrParcel.success then
      .ok env.dataGoKrParcel
    else if !env.vworldAvailable && !env.dataGoKrAvailable then
      match generateMockParcel coordinates jibunAddress with
      | .error e => .error e
      | .ok parcel =>
        .ok { success := true, parcel := some parcel, source := .mock,
              confidence := .estimated, error := none }
    else
      .ok { success := false, parcel := none, source := .api,
            confidence := .estimated,
            error := some (("실제 필지 데이터를 가져오지 못했습니다").toList) }
  | _, _ =>
    .ok { success := false, parcel := none, source := .mock,
          confidence := .estimated,
          error := some (("주소를 먼저 확인해주세요").toList) }

/-! Zoning resolution: the v2 adapter method and the legacy facade of
`src/adapters/korea/zoningResolver.ts`. -/

/-- The sixteen Seoul zoning codes (`ZoningCode` in
`src/domain/korea/zoning.ts`). -/
inductive ZoningCode where
  | R1E
  | R2E
  | R1G
  | R2G
  | R3G
  | RSR
  | CC
  | CG
  | CN
  | CD
  | IE
  | IG
  | ISI
  | GC
  | GP
  | GN
  deriving DecidableEq, Repr

/-- The code as the string the legacy `ZoningInfo.code` field carries. -/
def zoningCodeChars : ZoningCode → List Char
  | .R1E => ("R1E").toList
  | .R2E => ("R2E").toList
  | .R1G => ("R1G").toList
  | .R2G => ("R2G").toList
  | .R3G => ("R3G").toList
  | .RSR => ("RSR").toList
  | .CC => ("CC").toList
  | .CG => ("CG").toList
  | .CN => ("CN").toList
  | .CD => ("CD").toList
  | .IE => ("IE").toList
  | .IG => ("IG").toList
  | .ISI => ("ISI").toList
  | .GC => ("GC").toList
  | .GP => ("GP").toList
  | .GN => ("GN").toList

/-- The `DISTRICT_ZONING_MAP` district-inference table of the adapter
source. -/
def DISTRICT_ZONING_MAP : List (List Char × ZoningCode) :=
  [(("강남구").toList, .R3G),
   (("서초구").toList, .R3G),
   (("송파구").toList, .R2G),
   (("강동구").toList, .R2G),
   (("마포구").toList, .RSR),
   (("영등포구").toList, .CG),
   (("종로구").toList, .CG),
   (("중구").toList, .CC),
   (("용산구").toList, .R2G),
   (("성동구").toList, .ISI),
   (("광진구").toList, .R2G),
   (("동대문구").toList, .R2G),
   (("중랑구").toList, .R2G),
   (("성북구").toList, .R1G),
   (("강북구").toList, .R1G),
   (("도봉구").toList, .R1G),
   (("노원구").toList, .R2G),
   (("은평구").toList, .R1G),
   (("서대문구").toList, .R2G),
   (("양천구").toList, .R2G),
   (("강서구").toList, .R2G),
   (("동작구").toList, .R2G),
   (("관악구").toList, .R2G),
   (("구로구").toList, .ISI),
   (("금천구").toList, .ISI)]

/-- The `getZoningKoreanName` lookup of the v2 adapter; every code is a key
of the source map, so the `|| code` fallback never fires. -/
def getZoningKoreanName : ZoningCode → List Char
  | .R1E => ("제1종전용주거지역").toList
  | .R2E => ("제2종전용주거지역").toList
  | .R1G => ("제1종일반주거지역").toList
  | .R2G => ("제2종일반주거지역").toList
  | .R3G => ("제3종일반주거지역").toList
  | .RSR => ("준주거지역").toList
  | .CC => ("중심상업지역").toList
  | .CG => ("일반상업지역").toList
  | .CN => ("근린상업지역").toList
  | .CD => ("유통상업지역").toList
  | .IE => ("전용공업지역").toList
  | .IG => ("일반공업지역").toList
  | .ISI => ("준공업지역").toList
  | .GC => ("보전녹지지역").toList
  | .GP => ("생산녹지지역").toList
  | .GN => ("자연녹지지역").toList

/-- Zoning overlay (`ZoningOverlay`); the constant `type`/`source` tags are
omitted. -/
structure ZoningOverlay where
  name : List Char
  restrictions : Option (List (List Char))
  deriving DecidableEq, Repr

/-- Zoning resolution method (`ZoningResolutionResult` in
`src/domain/korea/index.ts`). -/
inductive ZoningMethod where
  | api
  | inference
  | manual
  | defaultMethod
  deriving DecidableEq, Repr

/-- Zoning resolution result (`ZoningResolutionResult` in
`src/domain/korea/index.ts`). -/
structure ZoningResolutionResult where
  success : Bool
  zoningCode : Option ZoningCode
  zoningName : Option (List Char)
  method : ZoningMethod
  confidence : ConfidenceLevel
  overlays : Option (List ZoningOverlay)
  error : Option (List Char)
  deriving DecidableEq, Repr

/-- Credential configuration plus the results the two private zoning
resolvers (`resolveZoningFromVWorld`, `resolveZoningFromDataGoKr`) would
return if called. -/
structure ZoningEnv where
  vworldAvailable : Bool
  dataGoKrAvailable : Bool
  vworldZoning : ZoningResolutionResult
  dataGoKrZoning : ZoningResolutionResult
  deriving DecidableEq, Repr

/-- The `resolveZoning` method of the v2 adapter: VWorld layer first if
credentialed, then the data.go.kr regulation service; with no credential at
all, district inference at confidence low; otherwise a failure result
prompting manual override. -/
def adapterResolveZoning (env : ZoningEnv) (parcel : KoreaParcel) :
    ZoningResolutionResult :=
  if env.vworldAvailable && env.vworldZoning.success then
    env.vworldZoning
  else if env.dataGoKrAvailable && env.dataGoKrZoning.success then
    env.dataGoKrZoning
  else
    let inferred : Option ZoningResolutionResult :=
      if !env.vworldAvailable && !env.dataGoKrAvailable then
        match DISTRICT_ZONING_MAP.lookup parcel.jibunAddress.sigungu with
        | some zc =>
          some { success := true, zoningCode := some zc,
                 zoningName := some (getZoningKoreanName zc),
                 method := .inference, confidence := .low,
                 overlays := some [], error := none }
        | none => none
      else none
    match inferred with
    | some r => r
    | none =>
      { success := false, zoningCode := none, zoningName := none,
        method := .api, confidence := .low, overlays := none,
        error := some (("용도지역 정보를 가져올 수 없습니다").toList) }

/-- Height-limit source tags (`HeightRegulation` in
`src/domain/korea/regulations.ts`). -/
inductive HeightSource where
  | ordinance
  | district_plan
  | calculated
  | none
  deriving DecidableEq, Repr

/-- BCR regulation entry (`BCRRegulation`); `unit` (always %) and
`legalBasis` are omitted. -/
structure BCRRegulation where
  nationalMax : ℚ
  seoulMax : ℚ
  typical : ℚ
  deriving DecidableEq, Repr

/-- FAR regulation entry (`FARRegulation`); `unit` and `legalBasis` are
omitted. -/
structure FARRegulation where
  nationalMax : ℚ
  seoulMax : ℚ
  typical : ℚ
  deriving DecidableEq, Repr

/-- Height regulation entry (`HeightRegulation`); `legalBasis` omitted. -/
structure HeightRegulation where
  maxHeight : Option ℚ
  maxFloors : Option ℚ
  source : HeightSource
  deriving DecidableEq, Repr

/-- Building regulations for one zoning code (`BuildingRegulations`);
`notes` omitted. -/
structure BuildingRegulations where
  zoningCode : ZoningCode
  bcr : BCRRegulation
  far : FARRegulation
  height : HeightRegulation
  deriving DecidableEq, Repr

/-- The `SEOUL_REGULATIONS` table of `src/domain/korea/regulations.ts`. -/
def SEOUL_REGULATIONS : ZoningCode → BuildingRegulations
  | .R1E => ⟨.R1E, ⟨50, 50, 50⟩, ⟨100, 100, 80⟩, ⟨Option.none, some 4, .ordinance⟩⟩
  | .R2E => ⟨.R2E, ⟨50, 50, 50⟩, ⟨150, 150, 120⟩, ⟨Option.none, some 7, .ordinance⟩⟩
  | .R1G => ⟨.R1G, ⟨60, 60, 60⟩, ⟨200, 200, 150⟩, ⟨Option.none, some 4, .ordinance⟩⟩
  | .R2G => ⟨.R2G, ⟨60, 60, 60⟩, ⟨250, 250, 200⟩, ⟨Option.none, some 12, .ordinance⟩⟩
  | .R3G => ⟨.R3G, ⟨50, 50, 50⟩, ⟨300, 300, 250⟩, ⟨Option.none, Option.none, .none⟩⟩
  | .RSR => ⟨.RSR, ⟨70, 70, 60⟩, ⟨500, 500, 400⟩, ⟨Option.none, Option.none, .none⟩⟩
  | .CC => ⟨.CC, ⟨90, 90, 80⟩, ⟨1500, 1500, 1000⟩, ⟨Option.none, Option.none, .none⟩⟩
  | .CG => ⟨.CG, ⟨80, 80, 70⟩, ⟨1300, 1300, 800⟩, ⟨Option.none, Option.none, .none⟩⟩
  | .CN => ⟨.CN, ⟨70, 70, 60⟩, ⟨900, 900, 600⟩, ⟨Option.none, Option.none, .none⟩⟩
  | .CD => ⟨.CD, ⟨80, 80, 70⟩, ⟨1100, 1100, 800⟩, ⟨Option.none, Option.none, .none⟩⟩
  | .IE => ⟨.IE, ⟨70, 70, 60⟩, ⟨300, 300, 200⟩, ⟨Option.none, Option.none, .none⟩⟩
  | .IG => ⟨.IG, ⟨70, 70, 60⟩, ⟨350, 350, 250⟩, ⟨Option.none, Option.none, .none⟩⟩
  | .ISI => ⟨.ISI, ⟨70, 70, 60⟩, ⟨400, 400, 300⟩, ⟨Option.none, Option.none, .none⟩⟩
  | .GC => ⟨.GC, ⟨20, 20, 20⟩, ⟨80, 80, 50⟩, ⟨Option.none, some 4, .ordinance⟩⟩
  | .GP => ⟨.GP, ⟨20, 20, 20⟩, ⟨100, 100, 80⟩, ⟨Option.none, some 4, .ordinance⟩⟩
  | .GN => ⟨.GN, ⟨20, 20, 20⟩, ⟨100, 100, 80⟩, ⟨Option.none, some 4, .ordinance⟩⟩

/-- The `nameKorean` field of `ZONING_DEFINITIONS` in
`src/domain/korea/zoning.ts` (the only field the facade reads). -/
def ZONING_DEFINITIONS_nameKorean : ZoningCode → List Char
  | .R1E => ("제1종전용주거지역").toList
  | .R2E => ("제2종전용주거지역").toList
  | .R1G => ("제1종일반주거지역").toList
  | .R2G => ("제2종일반주거지역").toList
  | .R3G => ("제3종일반주거지역").toList
  | .RSR => ("준주거지역").toList
  | .CC => ("중심상업지역").toList
  | .CG => ("일반상업지역").toList
  | .CN => ("근린상업지역").toList
  | .CD => ("유통상업지역").toList
  | .IE => ("전용공업지역").toList
  | .IG => ("일반공업지역").toList
  | .ISI => ("준공업지역").toList
  | .GC => ("보전녹지지역").toList
  | .GP => ("생산녹지지역").toList
  | .GN => ("자연녹지지역").toList

/-- The `CODE_TO_CATEGORY` map of `src/adapters/korea/zoningResolver.ts`. -/
def CODE_TO_CATEGORY : ZoningCode → ZoningCategory
  | .R1E => .residential
  | .R2E => .residential
  | .R1G => .residential
  | .R2G => .residential
  | .R3G => .residential
  | .RSR => .residential
  | .CC => .commercial
  | .CG => .commercial
  | .CN => .commercial
  | .CD => .commercial
  | .IE => .industrial
  | .IG => .industrial
  | .ISI => .industrial
  | .GC => .green
  | .GP => .green
  | .GN => .green

/-- JavaScript `parseInt(s, 10)` restricted to the forms occurring here:
leading whitespace, then a digit run; `none` models NaN. -/
def jsParseInt (s : List Char) : Option Nat :=
  let d := digitRun (s.dropWhile Char.isWhitespace)
  if d.isEmpty then none else some (parseDigits d)

/-- The `convertToKoreaParcel` helper of
`src/adapters/korea/zoningResolver.ts`.  The source casts `pnu[18]`
unchecked; parcels reaching this path carry 19-digit PNUs, and the default
character here is never read by any claim.  `parseInt(x) || 1` maps a NaN
or zero parse to 1. -/
def convertToKoreaParcel (parcel : Parcel) : KoreaParcel :=
  { pnu := { full := parcel.pnu
             sido := parcel.pnu.take 2
             sigungu := (parcel.pnu.drop 2).take 3
             eupmyeondong := (parcel.pnu.drop 5).take 3
             ri := (parcel.pnu.drop 8).take 2
             bonbun := (parcel.pnu.drop 10).take 4
             bubun := (parcel.pnu.drop 14).take 4
             sanType := (parcel.pnu[18]?).getD '1' }
    jibunAddress :=
      { sido := parcel.address.sido
        sigungu := parcel.address.sigungu
        eupmyeondong := parcel.address.dong
        ri := none
        bonbun :=
          match jsParseInt ((parcel.address.jibun.splitOn '-').headD []) with
          | some n => if n = 0 then 1 else n
          | none => 1
        bubun :=
          if parcel.address.jibun.contains '-' then
            jsParseInt (((parcel.address.jibun.splitOn '-').drop 1).headD [])
          else none
        isSan := false }
    geometry := parcel.ring
    area := parcel.area
    landUse := { category := ("대").toList
                 officialLandPrice := none
                 priceYear := none }
    dataSource := { provider := .LOCAL_MOCK, reliability := .estimated } }

/-- The `ZoningResolutionError` of `src/adapters/korea/zoningResolver.ts`:
an exception carrying the manual-override flag. -/
structure ZoningResolutionError where
  message : List Char
  requiresManualOverride : Bool
  deriving DecidableEq, Repr

/-- The facade `resolveZoning` of `src/adapters/korea/zoningResolver.ts`:
converts the legacy parcel, runs the adapter, throws a
`ZoningResolutionError` with `requiresManualOverride = true` on failure,
and otherwise assembles the legacy `ZoningInfo` from the regulation table.
The presentation-only `source` metadata (name, timestamp) is omitted. -/
def resolveZoningFacade (env : ZoningEnv) (parcel : Parcel) :
    Except ZoningResolutionError ZoningInfo :=
  let koreaParcel := convertToKoreaParcel parcel
  let result := adapterResolveZoning env koreaParcel
  match result.success, result.zoningCode with
  | true, some zc =>
    let regulations := SEOUL_REGULATIONS zc
    .ok { code := zoningCodeChars zc
          name := ZONING_DEFINITIONS_nameKorean zc
          category := CODE_TO_CATEGORY zc
          regulations :=
            { far := { value := some regulations.far.typical
                       confidence :=
                         if result.confidence = .high then .high else .medium }
              bcr := { value := some regulations.bcr.seoulMax
                       confidence := .high }
              heightLimit :=
                { value := regulations.height.maxHeight
                  confidence :=
                    match regulations.height.maxHeight with
                    | some hm => if hm ≠ 0 then .medium else .unknown
                    | Option.none => .unknown } } }
  | _, _ =>
    .error { message := result.error.getD (("용도지역을 확인할 수 없습니다").toList)
             requiresManualOverride := true }

/-! Spec-side definitions, transcribed from the specification text (not from
the source) for comparison with the source-derived functions. -/

/-- Spec-side buildable-footprint area in m² after setbacks: the area of the
axis-aligned rectangle `calculateBuildableFootprint` returns, converted to
meters with the source's meters-per-degree constants. -/
def footprintAreaSpec (parcel : Parcel) (setbacks : Setbacks) : ℚ :=
  let coords := parcel.ring
  let minLng := listMin (coords.map Prod.fst)
  let maxLng := listMax (coords.map Prod.fst)
  let minLat := listMin (coords.map Prod.snd)
  let maxLat := listMax (coords.map Prod.snd)
  let widthM := (maxLng - minLng) * metersPerDegreeLng -
    (setbacks.left + setbacks.right)
  let depthM := (maxLat - minLat) * metersPerDegreeLat -
    (setbacks.front + setbacks.rear)
  widthM * depthM

/-- Spec-side building coverage, section 4.4 item 3 of the spec:
min(footprint, lotArea x BCR%). -/
def buildingCoverageSpecMin (parcel : Parcel) (zoning : ZoningInfo) : ℚ :=
  min (footprintAreaSpec parcel (getSetbacks zoning.category))
    (parcel.area * (zoning.regulations.bcr.value.getD 60 / 100))

/-- Spec-side overall-confidence aggregation, last line of section 4.4 of
the spec: high only if both FAR and BCR confidence are high; low if either
is unknown; medium otherwise. -/
def overallConfidenceSpec (zoning : ZoningInfo) : ConfidenceLevel :=
  if zoning.regulations.far.confidence = ConfidenceLevel.high ∧
      zoning.regulations.bcr.confidence = ConfidenceLevel.high then
    ConfidenceLevel.high
  else if zoning.regulations.far.confidence = ConfidenceLevel.unknown ∨
      zoning.regulations.bcr.confidence = ConfidenceLevel.unknown then
    ConfidenceLevel.low
  else
    ConfidenceLevel.medium

/-- A zoning record with FAR and BCR values replaced by explicit values,
used to state that absent values behave like the defaults. -/
def withFarBcr (z : ZoningInfo) (farVal bcrVal : ℚ) : ZoningInfo :=
  { z with regulations :=
    { z.regulations with
      far := { z.regulations.far with value := some farVal }
      bcr := { z.regulations.bcr with value := some bcrVal } } }

/-! Concrete inputs used by witnesses and counterexamples. -/

/-- An empty legacy address record. -/
def emptyAddress : ParcelAddress :=
  { full := [], sido := [], sigungu := [], dong := [], jibun := [] }

/-- A parcel whose bounding box is 10 m x 10 m (at the source's
meters-per-degree scale) with declared lot area 100 m². -/
def parcelTenByTen : Parcel :=
  { pnu := ("1168010100100010001").toList
    address := emptyAddress
    ring := [(0, 0), (1 / 8800, 0), (1 / 8800, 1 / 11100), (0, 1 / 11100), (0, 0)]
    area := 100 }

/-- The same 10 m x 10 m ring with declared lot area 1000 m². -/
def parcelThousand : Parcel :=
  { pnu := ("1168010100100010001").toList
    address := emptyAddress
    ring := [(0, 0), (1 / 8800, 0), (1 / 8800, 1 / 11100), (0, 1 / 11100), (0, 0)]
    area := 1000 }

/-- Residential zoning, BCR 60 %, FAR 200 %, no height limit. -/
def zoningResidential60 : ZoningInfo :=
  { code := ("R2G").toList
    name := []
    category := .residential
    regulations :=
      { far := { value := some 200, confidence := .high }
        bcr := { value := some 60, confidence := .high }
        heightLimit := { value := none, confidence := .unknown } } }

/-- Residential zoning with a huge FAR and an explicit 600 m height limit
(above the absolute 500 m cap). -/
def zoningLimit600 : ZoningInfo :=
  { code := []
    name := []
    category := .residential
    regulations :=
      { far := { value := some 20000, confidence := .high }
        bcr := { value := some 60, confidence := .high }
        heightLimit := { value := some 600, confidence := .medium } } }

/-- Residential zoning with a huge FAR and an explicit 400 m height limit. -/
def zoningLimit400 : ZoningInfo :=
  { code := []
    name := []
    category := .residential
    regulations :=
      { far := { value := some 20000, confidence := .high }
        bcr := { value := some 60, confidence := .high }
        heightLimit := { value := some 400, confidence := .medium } } }

/-- Residential zoning with FAR 100 %, BCR 60 %, no height limit. -/
def zoningFar100 : ZoningInfo :=
  { code := []
    name := []
    category := .residential
    regulations :=
      { far := { value := some 100, confidence := .high }
        bcr := { value := some 60, confidence := .high }
        heightLimit := { value := none, confidence := .unknown } } }

/-- Residential zoning with FAR 300 %, otherwise identical to
`zoningFar100`. -/
def zoningFar300 : ZoningInfo :=
  { code := []
    name := []
    category := .residential
    regulations :=
      { far := { value := some 300, confidence := .high }
        bcr := { value := some 60, confidence := .high }
        heightLimit := { value := none, confidence := .unknown } } }

/-- Zoning with null FAR and BCR values. -/
def zoningNoValues : ZoningInfo :=
  { code := []
    name := []
    category := .residential
    regulations :=
      { far := { value := none, confidence := .unknown }
        bcr := { value := none, confidence := .unknown }
        heightLimit := { value := none, confidence := .unknown } } }

/-- Component set of the spec's scenario-2 PNU 1168010100100010001. -/
def pnuScenario2 : PNUComponents :=
  { sido := ("11").toList
    sigungu := ("680").toList
    eupmyeondong := ("101").toList
    ri := ("00").toList
    bonbun := ("0001").toList
    bubun := ("0001").toList
    sanType := '1' }

/-- A failed parcel-fetch result used as the environment outcome of an
unsuccessful registry call. -/
def failedParcelResult : ParcelFetchResult :=
  { success := false, parcel := none, source := .api, confidence := .estimated,
    error := some (("no data").toList) }

/-- A failed zoning-resolution result used as the environment outcome of an
unsuccessful registry call. -/
def failedZoningResult : ZoningResolutionResult :=
  { success := false, zoningCode := none, zoningName := none, method := .api,
    confidence := .low, overlays := none, error := some (("no data").toList) }

/-- Jibun address for 강남구 역삼동 123. -/
def jibunYeoksam : JibunAddress :=
  { sido := ("서울특별시").toList
    sigungu := ("강남구").toList
    eupmyeondong := ("역삼동").toList
    ri := none
    bonbun := 123
    bubun := none
    isSan := false }

/-- A successfully resolved address with a jibun address. -/
def addrResolvedWithJibun : ResolvedAddressResult :=
  { success := true
    input := ("서울특별시 강남구 역삼동 123").toList
    jibunAddress := some jibunYeoksam
    coordinates := some (127, 37)
    confidence := .approximate }

/-- A successfully resolved address without a jibun address (no dong could
be extracted). -/
def addrResolvedNoJibun : ResolvedAddressResult :=
  { success := true
    input := ("서울특별시 강남구 123").toList
    jibunAddress := none
    coordinates := some (127, 37)
    confidence := .district_level }

/-- Parcel environment with no credential configured. -/
def envNoCreds : ParcelEnv :=
  { vworldAvailable := false
    dataGoKrAvailable := false
    vworldParcel := failedParcelResult
    dataGoKrParcel := failedParcelResult }

/-- Parcel environment with both credentials configured and both registry
calls failing. -/
def envBothCredsFailing : ParcelEnv :=
  { vworldAvailable := true
    dataGoKrAvailable := true
    vworldParcel := failedParcelResult
    dataGoKrParcel := failedParcelResult }

/-- Zoning environment with both registries configured and both zoning
lookups failing. -/
def zenvBothFailing : ZoningEnv :=
  { vworldAvailable := true
    dataGoKrAvailable := true
    vworldZoning := failedZoningResult
    dataGoKrZoning := failedZoningResult }

/-- Address string 서울특별시 강남구 역삼동 123. -/
def addrYeoksam123 : List Char := ("서울특별시 강남구 역삼동 123").toList

/-- Address string 서울특별시 강남구 역삼동 456: same district and dong as
`addrYeoksam123`, different lot number. -/
def addrYeoksam456 : List Char := ("서울특별시 강남구 역삼동 456").toList

/-! Theorems for the claims. -/

/-- C7: for every valid PNU component set c (fixed-width digit fields with
land-type flag in 1 or 2), parsing the string built from it returns exactly
those components: parsePNU (buildPNU c) = c. -/
theorem pnu_roundtrip (c : PNUComponents) (h : ValidPNUComponents c) :
    parsePNU (buildPNU c) = some (componentsToPNU c) := by
  obtain ⟨h1, h2, h3, h4, h5, h6, -, h8⟩ := h
  have e : buildPNU c =
      c.sido ++ (c.sigungu ++ (c.eupmyeondong ++ (c.ri ++ (c.bonbun ++
        (c.bubun ++ [c.sanType]))))) := by
    simp [buildPNU, padStart, h2, h3, h4, h5, h6, List.append_assoc]
  have hlen : (buildPNU c).length = 19 := by
    simp [e, h1, h2, h3, h4, h5, h6]
  have d2 : (buildPNU c).drop 2 =
      c.sigungu ++ (c.eupmyeondong ++ (c.ri ++ (c.bonbun ++ (c.bubun ++
        [c.sanType])))) := by
    rw [e, List.drop_left' h1]
  have d5 : (buildPNU c).drop 5 =
      c.eupmyeondong ++ (c.ri ++ (c.bonbun ++ (c.bubun ++ [c.sanType]))) := by
    have h25 : (buildPNU c).drop 5 = ((buildPNU c).drop 2).drop 3 := by
      rw [List.drop_drop]
    rw [h25, d2, List.drop_left' h2]
  have d8 : (buildPNU c).drop 8 =
      c.ri ++ (c.bonbun ++ (c.bubun ++ [c.sanType])) := by
    have h58 : (buildPNU c).drop 8 = ((buildPNU c).drop 5).drop 3 := by
      rw [List.drop_drop]
    rw [h58, d5, List.drop_left' h3]
  have d10 : (buildPNU c).drop 10 = c.bonbun ++ (c.bubun ++ [c.sanType]) := by
    have h810 : (buildPNU c).drop 10 = ((buildPNU c).drop 8).drop 2 := by
      rw [List.drop_drop]
    rw [h810, d8, List.drop_left' h4]
  have d14 : (buildPNU c).drop 14 = c.bubun ++ [c.sanType] := by
    have h1014 : (buildPNU c).drop 14 = ((buildPNU c).drop 10).drop 4 := by
      rw [List.drop_drop]
    rw [h1014, d10, List.drop_left' h5]
  have d18 : (buildPNU c).drop 18 = [c.sanType] := by
    have h1418 : (buildPNU c).drop 18 = ((buildPNU c).drop 14).drop 4 := by
      rw [List.drop_drop]
    rw [h1418, d14, List.drop_left' h6]
  have t0 : (buildPNU c).take 2 = c.sido := by rw [e, List.take_left' h1]
  have t2 : ((buildPNU c).drop 2).take 3 = c.sigungu := by
    rw [d2, List.take_left' h2]
  have t5 : ((buildPNU c).drop 5).take 3 = c.eupmyeondong := by
    rw [d5, List.take_left' h3]
  have t8 : ((buildPNU c).drop 8).take 2 = c.ri := by
    rw [d8, List.take_left' h4]
  have t10 : ((buildPNU c).drop 10).take 4 = c.bonbun := by
    rw [d10, List.take_left' h5]
  have t14 : ((buildPNU c).drop 14).take 4 = c.bubun := by
    rw [d14, List.take_left' h6]
  have hget : (buildPNU c)[18]? = some c.sanType := by
    have hx : (buildPNU c)[18]? = ((buildPNU c).drop 18)[0]? := by
      rw [List.getElem?_drop]
    rw [hx, d18]; rfl
  simp only [parsePNU, hlen, hget, if_true, if_pos h8]
  simp [componentsToPNU, t0, t2, t5, t8, t10, t14]

/-- C7 witness: the round trip on the spec's scenario-2 component set. -/
theorem pnu_roundtrip_witness :
    parsePNU (buildPNU pnuScenario2) = some (componentsToPNU pnuScenario2) :=
  pnu_roundtrip pnuScenario2 (by decide)

/-- C8: the overall massing confidence equals the spec's aggregation rule:
high iff both FAR and BCR confidence are high, low if either is unknown,
medium otherwise. -/
theorem massing_confidence_aggregation (p : Parcel) (z : ZoningInfo) :
    (calculateMassing p z).confidence = overallConfidenceSpec z := rfl

/-- JavaScript rounding of an exact integer is that integer. -/
theorem jsRound_intCast (n : ℤ) : jsRound ((n : ℚ)) = n := by
  unfold jsRound
  rw [Int.floor_eq_iff]
  constructor
  · linarith
  · linarith

/-- C1 counterexample: on a 10 m x 10 m parcel of lot area 100 m² with BCR
60 %, the setback footprint is 35 m² but the reported building coverage is
60 m², not min(35, 60): the calculator ignores the footprint term. -/
theorem building_coverage_not_min :
    (calculateMassing parcelTenByTen zoningResidential60).statistics.buildingCoverage ≠
      buildingCoverageSpecMin parcelTenByTen zoningResidential60 := by
  have h60 : (calculateMassing parcelTenByTen zoningResidential60).statistics.buildingCoverage
      = 60 := by
    show round2 (calculateBuildingCoverage parcelTenByTen.area zoningResidential60) = 60
    have hc : calculateBuildingCoverage parcelTenByTen.area zoningResidential60 = ((60 : ℤ) : ℚ) := by
      norm_num [calculateBuildingCoverage, parcelTenByTen, zoningResidential60]
    rw [hc]
    unfold round2
    rw [show ((60 : ℤ) : ℚ) * 100 = ((6000 : ℤ) : ℚ) by norm_num, jsRound_intCast]
    norm_num
  have h35 : buildingCoverageSpecMin parcelTenByTen zoningResidential60 = 35 := by
    have hf : footprintAreaSpec parcelTenByTen
        (getSetbacks zoningResidential60.category) = 35 := by
      norm_num [footprintAreaSpec, parcelTenByTen, zoningResidential60, getSetbacks,
        DEFAULT_SETBACKS, listMin, listMax, metersPerDegreeLng, metersPerDegreeLat,
        min_def, max_def]
    unfold buildingCoverageSpecMin
    rw [hf]
    norm_num [parcelTenByTen, zoningResidential60, min_def]
  rw [h60, h35]
  norm_num

/-- C1 amended: the reported building coverage is always lotArea x BCR%
(with the 60 % default), regardless of the setback footprint. -/
theorem building_coverage_bcr_only (p : Parcel) (z : ZoningInfo) :
    (calculateMassing p z).statistics.buildingCoverage =
      round2 (p.area * (z.regulations.bcr.value.getD 60 / 100)) := rfl

/-- C10: when both the BCR and the FAR value are absent, the calculator
does not fail and computes exactly what it computes for an explicit BCR of
60 % and FAR of 200 %. -/
theorem massing_defaults (p : Parcel) (z : ZoningInfo)
    (hb : z.regulations.bcr.value = none)
    (hf : z.regulations.far.value = none) :
    calculateMassing p z = calculateMassing p (withFarBcr z 200 60) := by
  simp [calculateMassing, withFarBcr, calculateBuildingCoverage,
    calculateMaxHeight, farImpliedHeight, calculateStatistics,
    calculateBuildableFootprint, getSetbacks, hb, hf]

/-- C10 witness: the default substitution at a concrete parcel and zoning
with null FAR/BCR. -/
theorem massing_defaults_witness :
    calculateMassing parcelTenByTen zoningNoValues =
      calculateMassing parcelTenByTen (withFarBcr zoningNoValues 200 60) :=
  massing_defaults parcelTenByTen zoningNoValues rfl rfl

/-- The FAR-implied height of `parcelThousand` under a 20000 % FAR with BCR
60 % and residential floor height: ceil(200000 / 600) * 3 = 1002 m. -/
theorem farImpliedHeight_thousand (z : ZoningInfo)
    (hfar : z.regulations.far.value = some 20000)
    (hbcr : z.regulations.bcr.value = some 60)
    (hcat : z.category = ZoningCategory.residential) :
    farImpliedHeight parcelThousand.area z
      (calculateBuildingCoverage parcelThousand.area z) = 1002 := by
  simp only [farImpliedHeight, calculateBuildingCoverage]
  rw [hfar, hbcr, hcat]
  norm_num [parcelThousand, floorHeight]
  rw [show ⌈(1000 : ℚ) / 3⌉ = 334 by rw [Int.ceil_eq_iff]; norm_num]
  norm_num

/-- C5 counterexample: with an explicit 600 m height limit and a FAR-implied
height of 1002 m, the returned maxHeight is the absolute 500 m cap, not the
600 m height limit, and the floor count is recomputed from 500 m. -/
theorem height_clamp_counterexample :
    zoningLimit600.regulations.heightLimit.value = some 600 ∧
    600 < farImpliedHeight parcelThousand.area zoningLimit600
      (calculateBuildingCoverage parcelThousand.area zoningLimit600) ∧
    (calculateMassing parcelThousand zoningLimit600).envelope.maxHeight ≠ 600 ∧
    (calculateMassing parcelThousand zoningLimit600).statistics.estimatedFloors ≠
      ⌊(600 : ℚ) / floorHeight zoningLimit600.category⌋ := by
  have hfi := farImpliedHeight_thousand zoningLimit600 rfl rfl rfl
  have hmh : calculateMaxHeight parcelThousand.area zoningLimit600
      (calculateBuildingCoverage parcelThousand.area zoningLimit600) = 500 := by
    simp only [calculateMaxHeight]
    rw [hfi]
    rw [show zoningLimit600.regulations.heightLimit.value = some 600 from rfl]
    simp only [applyHeightLimit]
    norm_num [min_def]
  refine ⟨rfl, by rw [hfi]; norm_num, ?_, ?_⟩
  · show calculateMaxHeight parcelThousand.area zoningLimit600
        (calculateBuildingCoverage parcelThousand.area zoningLimit600) ≠ 600
    rw [hmh]
    norm_num
  have hfl : (calculateMassing parcelThousand zoningLimit600).statistics.estimatedFloors
      = ⌊(500 : ℚ) / floorHeight zoningLimit600.category⌋ := by
    show ⌊calculateMaxHeight parcelThousand.area zoningLimit600
        (calculateBuildingCoverage parcelThousand.area zoningLimit600) /
        floorHeight zoningLimit600.category⌋ =
      ⌊(500 : ℚ) / floorHeight zoningLimit600.category⌋
    rw [hmh]
  rw [hfl]
  show ⌊(500 : ℚ) / floorHeight ZoningCategory.residential⌋ ≠
    ⌊(600 : ℚ) / floorHeight ZoningCategory.residential⌋
  rw [show floorHeight ZoningCategory.residential = 3 from rfl]
  rw [show ⌊(500 : ℚ) / 3⌋ = 166 by rw [Int.floor_eq_iff]; norm_num]
  rw [show ⌊(600 : ℚ) / 3⌋ = 200 by rw [Int.floor_eq_iff]; norm_num]
  norm_num

/-- C5 amended: when the FAR-implied height exceeds an explicit positive
height limit that does not itself exceed the absolute 500 m cap, the
returned maxHeight equals the height limit and the reported floor count is
floor(heightLimit / floorHeight). -/
theorem height_clamp_consistency (p : Parcel) (z : ZoningInfo) (h : ℚ)
    (hval : z.regulations.heightLimit.value = some h)
    (hpos : 0 < h) (h500 : h ≤ 500)
    (hexceed : h < farImpliedHeight p.area z (calculateBuildingCoverage p.area z)) :
    (calculateMassing p z).envelope.maxHeight = h ∧
    (calculateMassing p z).statistics.estimatedFloors =
      ⌊h / floorHeight z.category⌋ := by
  have hcl : applyHeightLimit z.regulations.heightLimit.value
      (farImpliedHeight p.area z (calculateBuildingCoverage p.area z)) = h := by
    rw [hval]
    simp only [applyHeightLimit]
    exact if_pos ⟨ne_of_gt hpos, hexceed⟩
  have hmh : calculateMaxHeight p.area z (calculateBuildingCoverage p.area z) = h := by
    simp only [calculateMaxHeight]
    rw [hcl]
    exact min_eq_left h500
  refine ⟨hmh, ?_⟩
  show ⌊calculateMaxHeight p.area z (calculateBuildingCoverage p.area z) /
      floorHeight z.category⌋ = ⌊h / floorHeight z.category⌋
  rw [hmh]

/-- C5 amended witness: the clamp at a 400 m limit with FAR-implied height
1002 m. -/
theorem height_clamp_consistency_witness :
    (calculateMassing parcelThousand zoningLimit400).envelope.maxHeight = 400 ∧
    (calculateMassing parcelThousand zoningLimit400).statistics.estimatedFloors =
      ⌊(400 : ℚ) / floorHeight zoningLimit400.category⌋ :=
  height_clamp_consistency parcelThousand zoningLimit400 400 rfl
    (by norm_num) (by norm_num)
    (by rw [farImpliedHeight_thousand zoningLimit400 rfl rfl rfl]; norm_num)

/-- Every floor height in the source table is positive. -/
theorem floorHeight_pos (c : ZoningCategory) : 0 < floorHeight c := by
  cases c <;> norm_num [floorHeight]

/-- The height-limit clamp is monotone in the calculated height. -/
theorem applyHeightLimit_mono (hl : Option ℚ) {x y : ℚ} (hxy : x ≤ y) :
    applyHeightLimit hl x ≤ applyHeightLimit hl y := by
  cases hl with
  | none => exact hxy
  | some h =>
    simp only [applyHeightLimit]
    by_cases hx : h ≠ 0 ∧ x > h
    · rw [if_pos hx]
      by_cases hy : h ≠ 0 ∧ y > h
      · rw [if_pos hy]
      · rw [if_neg hy]
        exact le_of_lt (lt_of_lt_of_le hx.2 hxy)
    · rw [if_neg hx]
      by_cases hy : h ≠ 0 ∧ y > h
      · rw [if_pos hy]
        have hxh : ¬ x > h := fun hgt => hx ⟨hy.1, hgt⟩
        exact le_of_not_lt hxh
      · rw [if_neg hy]
        exact hxy

/-- C6: with the parcel, BCR and height limit fixed, increasing the FAR
value never decreases the reported floor count. -/
theorem estimatedFloors_monotone_in_far (p : Parcel) (z1 z2 : ZoningInfo)
    (hcat : z1.category = z2.category)
    (hbcr : z1.regulations.bcr = z2.regulations.bcr)
    (hhl : z1.regulations.heightLimit = z2.regulations.heightLimit)
    (harea : 0 < p.area)
    (hbcrpos : 0 < z1.regulations.bcr.value.getD 60)
    (hfar : z1.regulations.far.value.getD 200 ≤ z2.regulations.far.value.getD 200) :
    (calculateMassing p z1).statistics.estimatedFloors ≤
      (calculateMassing p z2).statistics.estimatedFloors := by
  have hcov : calculateBuildingCoverage p.area z1 = calculateBuildingCoverage p.area z2 := by
    simp only [calculateBuildingCoverage]
    rw [hbcr]
  have hcovpos : 0 < calculateBuildingCoverage p.area z1 := by
    simp only [calculateBuildingCoverage]
    exact mul_pos harea (div_pos hbcrpos (by norm_num))
  have hfh : floorHeight z1.category = floorHeight z2.category := by rw [hcat]
  have hfhpos : 0 < floorHeight z1.category := floorHeight_pos _
  have hgfa : p.area * (z1.regulations.far.value.getD 200 / 100) ≤
      p.area * (z2.regulations.far.value.getD 200 / 100) :=
    mul_le_mul_of_nonneg_left
      ((div_le_div_iff_of_pos_right (by norm_num : (0 : ℚ) < 100)).2 hfar) (le_of_lt harea)
  have hfih : farImpliedHeight p.area z1 (calculateBuildingCoverage p.area z1) ≤
      farImpliedHeight p.area z2 (calculateBuildingCoverage p.area z2) := by
    rw [← hcov]
    simp only [farImpliedHeight]
    rw [← hfh]
    have hceil : ⌈p.area * (z1.regulations.far.value.getD 200 / 100) /
          calculateBuildingCoverage p.area z1⌉ ≤
        ⌈p.area * (z2.regulations.far.value.getD 200 / 100) /
          calculateBuildingCoverage p.area z1⌉ :=
      Int.ceil_le_ceil ((div_le_div_iff_of_pos_right hcovpos).2 hgfa)
    have hcast : ((⌈p.area * (z1.regulations.far.value.getD 200 / 100) /
          calculateBuildingCoverage p.area z1⌉ : ℤ) : ℚ) ≤
        ((⌈p.area * (z2.regulations.far.value.getD 200 / 100) /
          calculateBuildingCoverage p.area z1⌉ : ℤ) : ℚ) := by
      exact_mod_cast hceil
    exact mul_le_mul_of_nonneg_right hcast (le_of_lt hfhpos)
  have hmax : calculateMaxHeight p.area z1 (calculateBuildingCoverage p.area z1) ≤
      calculateMaxHeight p.area z2 (calculateBuildingCoverage p.area z2) := by
    simp only [calculateMaxHeight]
    rw [← hhl]
    exact min_le_min (applyHeightLimit_mono _ hfih) le_rfl
  show ⌊calculateMaxHeight p.area z1 (calculateBuildingCoverage p.area z1) /
      floorHeight z1.category⌋ ≤
    ⌊calculateMaxHeight p.area z2 (calculateBuildingCoverage p.area z2) /
      floorHeight z2.category⌋
  rw [← hfh]
  exact Int.floor_le_floor ((div_le_div_iff_of_pos_right hfhpos).2 hmax)

/-- C6 witness: floor-count monotonicity between FAR 100 % and FAR 300 % on
a concrete residential parcel. -/
theorem estimatedFloors_monotone_in_far_witness :
    (calculateMassing parcelTenByTen zoningFar100).statistics.estimatedFloors ≤
      (calculateMassing parcelTenByTen zoningFar300).statistics.estimatedFloors :=
  estimatedFloors_monotone_in_far parcelTenByTen zoningFar100 zoningFar300
    rfl rfl rfl (by norm_num [parcelTenByTen]) (by norm_num [zoningFar100])
    (by norm_num [zoningFar100, zoningFar300])

/-- C2: with no registry credential configured, fetchParcel on a resolved
address carrying a jibun address with a valid district always succeeds with
a mock parcel; with no credential and no jibun address it throws, never
substituting a default district. -/
theorem fetchParcel_no_credentials (env : ParcelEnv) (addr : ResolvedAddressResult)
    (hv : env.vworldAvailable = false) (hd : env.dataGoKrAvailable = false) :
    (∀ c j, addr.success = true → addr.coordinates = some c →
      addr.jibunAddress = some j →
      (SEOUL_DISTRICT_CODES.lookup j.sigungu).isSome = true →
      ∃ r, fetchParcel env addr = .ok r ∧ r.success = true ∧ r.source = .mock) ∧
    (∀ c, addr.success = true → addr.coordinates = some c →
      addr.jibunAddress = none →
      ∃ e, fetchParcel env addr = .error e) := by
  constructor
  · intro c j hs hc hj hlook
    have hne : j.sigungu.isEmpty = false := by
      cases hsig : j.sigungu with
      | nil =>
        rw [hsig] at hlook
        exact absurd hlook (by decide)
      | cons a l => simp [List.isEmpty]
    obtain ⟨dc, hdc⟩ := Option.isSome_iff_exists.mp hlook
    simp only [fetchParcel, hs, hc, hv, hd, hj, generateMockParcel, hne,
      generatePNU, hdc, Bool.false_and, Bool.and_false, Bool.not_false,
      Bool.and_self, if_false, if_true, Bool.false_eq_true, ite_false]
    exact ⟨_, rfl, rfl, rfl⟩
  · intro c hs hc hj
    simp only [fetchParcel, hs, hc, hv, hd, hj, generateMockParcel,
      Bool.false_and, Bool.not_false, Bool.and_self, Bool.false_eq_true,
      ite_false]
    exact ⟨_, rfl⟩

/-- C2 witness: with no credentials, a resolved 강남구 역삼동 address yields
a mock parcel, and a resolved address without a jibun address throws. -/
theorem fetchParcel_no_credentials_witness :
    (∃ r, fetchParcel envNoCreds addrResolvedWithJibun = .ok r ∧
      r.success = true ∧ r.source = .mock) ∧
    (∃ e, fetchParcel envNoCreds addrResolvedNoJibun = .error e) :=
  ⟨(fetchParcel_no_credentials envNoCreds addrResolvedWithJibun rfl rfl).1
      (127, 37) jibunYeoksam rfl rfl rfl (by decide),
    (fetchParcel_no_credentials envNoCreds addrResolvedNoJibun rfl rfl).2
      (127, 37) rfl rfl rfl⟩

/-- C3: if at least one registry credential is configured and every
attempted registry parcel lookup fails, fetchParcel returns a failure
result carrying no parcel (in particular, never a mock parcel). -/
theorem fetchParcel_no_mock_after_attempt (env : ParcelEnv)
    (addr : ResolvedAddressResult)
    (hcred : env.vworldAvailable = true ∨ env.dataGoKrAvailable = true)
    (hv : env.vworldAvailable = true → env.vworldParcel.success = false)
    (hd : env.dataGoKrAvailable = true → addr.jibunAddress.isSome = true →
      env.dataGoKrParcel.success = false) :
    ∃ r, fetchParcel env addr = .ok r ∧ r.success = false ∧ r.parcel = none := by
  cases hs : addr.success with
  | false =>
    refine ⟨{ success := false, parcel := none, source := .mock,
              confidence := .estimated,
              error := some (("주소를 먼저 확인해주세요").toList) }, ?_, rfl, rfl⟩
    simp [fetchParcel, hs]
  | true =>
    cases hc : addr.coordinates with
    | none =>
      refine ⟨{ success := false, parcel := none, source := .mock,
                confidence := .estimated,
                error := some (("주소를 먼저 확인해주세요").toList) }, ?_, rfl, rfl⟩
      simp [fetchParcel, hs, hc]
    | some c =>
      have h1 : (env.vworldAvailable && env.vworldParcel.success) = false := by
        cases hvw : env.vworldAvailable
        · simp
        · simp [hv hvw]
      have h2 : (env.dataGoKrAvailable && addr.jibunAddress.isSome &&
          env.dataGoKrParcel.success) = false := by
        cases hdg : env.dataGoKrAvailable
        · simp
        · cases hjs : addr.jibunAddress.isSome
          · simp
          · simp [hd hdg hjs]
      have h3 : (!env.vworldAvailable && !env.dataGoKrAvailable) = false := by
        rcases hcred with h | h <;> simp [h]
      refine ⟨{ success := false, parcel := none, source := .api,
                confidence := .estimated,
                error := some (("실제 필지 데이터를 가져오지 못했습니다").toList) },
        ?_, rfl, rfl⟩
      simp [fetchParcel, hs, hc, h1, h2, h3]

/-- C3 witness: both registries configured and failing on a resolved
address yields a failure result with no parcel. -/
theorem fetchParcel_no_mock_after_attempt_witness :
    ∃ r, fetchParcel envBothCredsFailing addrResolvedWithJibun = .ok r ∧
      r.success = false ∧ r.parcel = none :=
  fetchParcel_no_mock_after_attempt envBothCredsFailing addrResolvedWithJibun
    (Or.inl rfl) (fun _ => rfl) (fun _ _ => rfl)

/-- C4: with both registries configured and both zoning lookups failing,
the adapter resolution yields success = false and the facade raises a
ZoningResolutionError with requiresManualOverride = true. -/
theorem zoning_failure_requires_manual_override (env : ZoningEnv) (p : Parcel)
    (hv : env.vworldAvailable = true) (hd : env.dataGoKrAvailable = true)
    (hvf : env.vworldZoning.success = false)
    (hdf : env.dataGoKrZoning.success = false) :
    (adapterResolveZoning env (convertToKoreaParcel p)).success = false ∧
    ∃ e, resolveZoningFacade env p = .error e ∧
      e.requiresManualOverride = true := by
  have hres : adapterResolveZoning env (convertToKoreaParcel p) =
      { success := false, zoningCode := none, zoningName := none,
        method := .api, confidence := .low, overlays := none,
        error := some (("용도지역 정보를 가져올 수 없습니다").toList) } := by
    simp [adapterResolveZoning, hv, hd, hvf, hdf]
  refine ⟨by rw [hres], ?_⟩
  refine ⟨{ message := ("용도지역 정보를 가져올 수 없습니다").toList
            requiresManualOverride := true }, ?_, rfl⟩
  simp only [resolveZoningFacade, hres]
  rfl

/-- C4 witness: the manual-override failure at a concrete environment and
parcel. -/
theorem zoning_failure_requires_manual_override_witness :
    (adapterResolveZoning zenvBothFailing
      (convertToKoreaParcel parcelTenByTen)).success = false ∧
    ∃ e, resolveZoningFacade zenvBothFailing parcelTenByTen = .error e ∧
      e.requiresManualOverride = true :=
  zoning_failure_requires_manual_override zenvBothFailing parcelTenByTen
    rfl rfl rfl rfl

/-- Any successful address resolution geocodes to
`getCoordinates extractedDistrict extractedDong`. -/
theorem resolveAddress_coordinates (a : List Char)
    (hs : (resolveAddress a).success = true) :
    (resolveAddress a).coordinates =
      some (getCoordinates ((extractedDistrict a).getD []) (extractedDong a)) := by
  unfold extractedDistrict extractedDong
  by_cases h1 : (jsTrim a).length < 5
  · simp [resolveAddress, h1] at hs
  by_cases h2 : isAddressInCity (jsTrim a) = true
  case neg => simp [resolveAddress, h1, h2] at hs
  cases h3 : findHangulSeq ['구'] (jsTrim a) with
  | none => simp [resolveAddress, h1, h2, h3] at hs
  | some district =>
    cases h4 : SEOUL_DISTRICT_CODES.lookup district with
    | none => simp [resolveAddress, h1, h2, h3, h4] at hs
    | some code =>
      cases h5 : findHangulSeq ['동', '읍', '면'] (jsTrim a) with
      | none =>
        simp [resolveAddress, h1, h2, h3, h4, parseAddressComponents, h5]
      | some g =>
        simp [resolveAddress, h1, h2, h3, h4, parseAddressComponents, h5]

/-- C9 counterexample: the addresses 역삼동 123 and 역삼동 456 are distinct,
both resolve successfully within the same district and dong, and geocode to
identical coordinates, refuting that distinct addresses in the same
sub-district get distinct coordinates. -/
theorem address_same_dong_counterexample :
    addrYeoksam123 ≠ addrYeoksam456 ∧
    (resolveAddress addrYeoksam123).success = true ∧
    (resolveAddress addrYeoksam456).success = true ∧
    extractedDistrict addrYeoksam123 = extractedDistrict addrYeoksam456 ∧
    extractedDong addrYeoksam123 = extractedDong addrYeoksam456 ∧
    (resolveAddress addrYeoksam123).coordinates =
      (resolveAddress addrYeoksam456).coordinates := by
  have hd : extractedDistrict addrYeoksam123 = extractedDistrict addrYeoksam456 := by
    decide
  have hg : extractedDong addrYeoksam123 = extractedDong addrYeoksam456 := by
    decide
  refine ⟨by decide, by decide, by decide, hd, hg, ?_⟩
  rw [resolveAddress_coordinates addrYeoksam123 (by decide),
    resolveAddress_coordinates addrYeoksam456 (by decide), hd, hg]

/-- C9 amended: resolution geocodes to the extracted district's centroid
plus a deterministic offset from a hash of the extracted dong, so two
successfully resolved addresses with the same extracted district and dong
obtain identical (not distinct) coordinates. -/
theorem address_coordinates_determined_by_district_dong (a b : List Char)
    (hsa : (resolveAddress a).success = true)
    (hsb : (resolveAddress b).success = true)
    (hd : extractedDistrict a = extractedDistrict b)
    (hg : extractedDong a = extractedDong b) :
    (resolveAddress a).coordinates = (resolveAddress b).coordinates := by
  rw [resolveAddress_coordinates a hsa, resolveAddress_coordinates b hsb, hd, hg]

/-- C9 amended witness: the determinism theorem applied to the two concrete
역삼동 addresses. -/
theorem address_coordinates_determined_witness :
    (resolveAddress addrYeoksam123).coordinates =
      (resolveAddress addrYeoksam456).coordinates :=
  address_coordinates_determined_by_district_dong addrYeoksam123 addrYeoksam456
    (by decide) (by decide) (by decide) (by decide)

end KoreaFeasibility
